import Mathlib

/-!
Shallow embedding of `activities/models/emoji.py` (takahe): the emoji
state machine (`EmojiStates`), the queryset visibility filter
(`EmojiQuerySet.usable`), and the `Emoji` model methods (`clean`,
`is_usable`, `full_url`, `as_html`, `imageify_emojis`,
`emojis_from_content`), together with Lean models of the pieces of the
Python runtime they rely on (truthiness, `re` scanning for the emoji
regex, dict semantics).
-/

namespace Takahe

/-- Python truthiness of an optional string field (Django `CharField`
with `null=True, blank=True`): `None` and the empty string are falsy. -/
def strTruthy : Option String → Bool
  | none => false
  | some s => !(s == "")

/-- The two states of the `EmojiStates` state graph: `outdated`
(initial, `try_interval=300`) and `updated`. -/
inductive EmojiState
  | outdated
  | updated
  deriving DecidableEq, Repr

/-- The `users.models.Domain` foreign key target, reduced to the two
fields the emoji code reads: its identity and its `local` flag. -/
structure Domain where
  id : Nat
  «local» : Bool
  deriving DecidableEq, Repr

/-- The `Emoji` model row.  `file` holds the cached file reference
(modelled by the URL that `file.url` would return), `none` when no file
is cached; `domain` holds the foreign key by `Domain.id`. -/
structure Emoji where
  pk : Nat
  shortcode : String
  domain : Option Nat
  «local» : Bool
  public : Option Bool
  object_uri : Option String
  mimetype : String
  file : Option String
  remote_url : Option String
  category : Option String
  state : EmojiState
  deriving DecidableEq, Repr

/-- Result of one run of a state handler on an instance: the (possibly
mutated) instance, whether the remote fetcher was invoked, whether
`instance.save()` was called, and the state the handler returned. -/
structure HandlerOutcome where
  inst : Emoji
  fetched : Bool
  saved : Bool
  next : EmojiState
  deriving DecidableEq, Repr

namespace EmojiStates

/-- `EmojiStates.handle_outdated`.  The `fetch` argument models
`core.files.get_remote_file` (module not part of the sources) already
applied to the configured timeout and max size: it returns
`some (file, mimetype)` when the fetch yields a file and `none` when it
fails (`get_remote_file` returns a `None` file on failure).  Mirrors:
`if instance.remote_url and not instance.file:` fetch, and only
`if file:` assign `file`/`mimetype` and save; the handler returns
`cls.updated` unconditionally. -/
def handle_outdated (fetch : String → Option (String × String))
    (inst : Emoji) : HandlerOutcome :=
  if strTruthy inst.remote_url && inst.file.isNone then
    match fetch (inst.remote_url.getD "") with
    | some (f, mt) =>
        ⟨{ inst with file := some f, mimetype := mt }, true, true,
          EmojiState.updated⟩
    | none => ⟨inst, true, false, EmojiState.updated⟩
  else ⟨inst, false, false, EmojiState.updated⟩

end EmojiStates

namespace EmojiQuerySet

/-- `EmojiQuerySet.usable(domain)` over a list-modelled queryset.
`cfg` is `Config.system.emoji_unreviewed_are_public`.  Mirrors: if
`domain is None or domain.local` the visibility Q is `local=True`;
otherwise `public=True`, or-ed with `public__isnull=True` when `cfg`;
then, when a non-local domain was given, a further `domain=domain`
filter. -/
def usable (cfg : Bool) (es : List Emoji) (domain : Option Domain) :
    List Emoji :=
  let visible_q : Emoji → Bool :=
    match domain with
    | none => fun e => e.«local»
    | some d =>
        if d.«local» then fun e => e.«local»
        else fun e => (e.public == some true) || (cfg && (e.public == none))
  let qs := es.filter visible_q
  match domain with
  | none => qs
  | some d => if !d.«local» then qs.filter (fun e => e.domain == some d.id) else qs

end EmojiQuerySet

namespace Emoji

/-- `Emoji.clean`: raises `ValidationError` when
`self.local ^ (self.domain is None)`. -/
def clean (e : Emoji) : Except String Unit :=
  if xor e.«local» e.domain.isNone then
    Except.error "Must be local or have a domain"
  else Except.ok ()

/-- `Emoji.fullcode`: `f":{self.shortcode}:"`. -/
def fullcode (e : Emoji) : String :=
  ":" ++ e.shortcode ++ ":"

/-- `Emoji.is_usable`: `self.public or (self.public is None and cfg)`
under Python truthiness (`None` and `False` are falsy).  `cfg` is
`Config.system.emoji_unreviewed_are_public`. -/
def is_usable (cfg : Bool) (e : Emoji) : Bool :=
  (match e.public with | some b => b | none => false)
    || ((e.public == none) && cfg)

end Emoji

/-! ### The emoji regex

`Emoji.emoji_regex` is `\B:([a-zA-Z0-9(_)-]+):\B`.  We embed Python's
`re` scanning of this particular pattern.  `\B` asserts a non-boundary:
since `:` is never a word character, the `\B` before the opening `:`
holds iff the preceding character is absent or not a word character,
and the `\B` after the closing `:` holds iff the following character
is absent or not a word character.  The engine tries the pattern at
each position left to right and, on a match, resumes immediately after
it; the greedy `+` over the class can never backtrack successfully
because `:` is not in the class.  A new attempt can only start at a
`:`; the characters of a failed run contain no `:`, so scanning may
resume character by character.  Word characters are modelled for the
ASCII range (Python's `\w` additionally covers non-ASCII word
characters; every character the class can capture is ASCII). -/

/-- ASCII model of `\w` for the `\B` assertions: `[a-zA-Z0-9_]`. -/
def isWordChar (c : Char) : Bool :=
  c.isAlphanum || c == '_'

/-- The character class of the capture group: `[a-zA-Z0-9(_)-]`. -/
def isShortcodeChar (c : Char) : Bool :=
  c.isAlphanum || c == '_' || c == '(' || c == ')' || c == '-'

/-- One token of the scan of a text by the emoji regex: a character the
regex left alone, or the captured group of one match. -/
inductive EmojiTok
  | lit (c : Char)
  | mtch (run : List Char)
  deriving DecidableEq, Repr

/-- The original text a token stands for: a match `mtch run` stood for
`:run:` in the input. -/
def tokText : EmojiTok → List Char
  | .lit c => [c]
  | .mtch run => ':' :: (run ++ [':'])

/-- The regex scanner as a token automaton, structurally recursive on
the text.  State `none` is plain scanning with `prevW` recording
whether the previous character was a word character (`false` at the
start of the text); state `some acc` means an opening `:` whose `\B`
held was consumed and `acc` holds the (reversed) run of class
characters read since.  On a failed attempt only the opening `:` is
re-examined as a potential new start (`acc` contains no `:`), and a
closing `:` whose trailing `\B` failed is itself retried as an opening
`:` exactly when the character before it (the last run character) is
not a word character. -/
def scan : Option (List Char) → Bool → List Char → List EmojiTok
  | none, _, [] => []
  | some acc, _, [] => EmojiTok.lit ':' :: (acc.reverse.map EmojiTok.lit)
  | none, prevW, c :: rest =>
    if c = ':' && !prevW then scan (some []) false rest
    else EmojiTok.lit c :: scan none (isWordChar c) rest
  | some acc, _, t :: rest =>
    if isShortcodeChar t then scan (some (t :: acc)) false rest
    else if t = ':' then
      if acc.isEmpty then EmojiTok.lit ':' :: scan (some []) false rest
      else
        match rest with
        | [] => [EmojiTok.mtch acc.reverse]
        | d :: _ =>
          if !isWordChar d then EmojiTok.mtch acc.reverse :: scan none false rest
          else
            if !isWordChar (acc.headD ' ') then
              EmojiTok.lit ':' :: (acc.reverse.map EmojiTok.lit) ++ scan (some []) false rest
            else
              EmojiTok.lit ':' :: (acc.reverse.map EmojiTok.lit) ++
                (EmojiTok.lit ':' :: scan none false rest)
    else
      EmojiTok.lit ':' :: (acc.reverse.map EmojiTok.lit) ++
        (EmojiTok.lit t :: scan none (isWordChar t) rest)

/-- The text each scanner state stands for, for stating the
decomposition lemma. -/
def stText : Option (List Char) → List Char
  | none => []
  | some acc => ':' :: acc.reverse

/-- `Emoji.emoji_regex.findall(text)`: the captured groups of all
matches, in order. -/
def emoji_regex_findall (cs : List Char) : List (List Char) :=
  (scan none false cs).filterMap fun t =>
    match t with
    | .mtch run => some run
    | .lit _ => none

/-- `.lower()` on a captured group (always ASCII, see the class). -/
def lowerRun (run : List Char) : List Char :=
  run.map Char.toLower

/-- The replacer of `Emoji.imageify_emojis` applied to one token:
`fullcode = match.group(1).lower()`; if it is a key of
`possible_matches` return its value, else `match.group()`; characters
outside matches are untouched. -/
def renderTok (table : String → Option String) : EmojiTok → List Char
  | .lit c => [c]
  | .mtch run =>
    match table (String.mk (lowerRun run)) with
    | some repl => repl.data
    | none => ':' :: (run ++ [':'])

/-- `Emoji.emoji_regex.sub(replacer, text)` with the replacer of
`imageify_emojis` reading the dict modelled by `table`. -/
def emoji_regex_sub (table : String → Option String) (cs : List Char) : List Char :=
  ((scan none false cs).map (renderTok table)).flatten

/-! ### URLs and rendering -/

/-- Modelled from the spec: the URI helpers of `core.uris` (module not
part of the sources).  `auto` wraps an already relative URL
(`AutoAbsoluteUrl`), `staticAsset` points at a bundled static file
(`StaticAbsoluteUrl`). -/
inductive RelativeAbsoluteUrl
  | auto (url : String)
  | staticAsset (path : String)
  deriving DecidableEq, Repr

/-- Modelled from the spec: the `.relative` URL of a URI helper; a
static asset is served under the static file root. -/
def RelativeAbsoluteUrl.relative : RelativeAbsoluteUrl → String
  | .auto u => u
  | .staticAsset p => "/static/" ++ p

namespace Emoji

/-- `Emoji.full_url`: if usable, the cached file's URL, else the proxy
URL when a remote URL exists; otherwise (and when not usable) the
static placeholder `img/blank-emoji-128.png`. -/
def full_url (cfg : Bool) (e : Emoji) : RelativeAbsoluteUrl :=
  if is_usable cfg e then
    match e.file with
    | some f => RelativeAbsoluteUrl.auto f
    | none =>
      if strTruthy e.remote_url then
        RelativeAbsoluteUrl.auto ("/proxy/emoji/" ++ toString e.pk ++ "/")
      else RelativeAbsoluteUrl.staticAsset "img/blank-emoji-128.png"
  else RelativeAbsoluteUrl.staticAsset "img/blank-emoji-128.png"

/-- `Emoji.as_html`: the inline `<img>` markup when usable, the literal
`:shortcode:` otherwise. -/
def as_html (cfg : Bool) (e : Emoji) : String :=
  if is_usable cfg e then
    "<img src=\"" ++ (full_url cfg e).relative ++ "\" class=\"emoji\" alt=\"Emoji "
      ++ e.shortcode ++ "\">"
  else fullcode e

end Emoji

/-- The `emojis` keyword argument of `imageify_emojis`: `None`, a
list, a queryset, or a value of any other runtime type, of which only
its Python truthiness matters (`otherArg false` models e.g. `{}` or
`0`, `otherArg true` e.g. a non-empty dict or string). -/
inductive EmojisArg
  | noneArg
  | listArg (l : List Emoji)
  | querysetArg (l : List Emoji)
  | otherArg (truthy : Bool)

/-- Python truthiness of the `emojis` argument: `None` is falsy, lists
and querysets are truthy iff non-empty. -/
def argTruthy : EmojisArg → Bool
  | .noneArg => false
  | .listArg l => !l.isEmpty
  | .querysetArg l => !l.isEmpty
  | .otherArg t => t

/-- Python dict lookup for a dict built by comprehension from an
association list: the latest binding of a key wins. -/
def dictLookup (d : List (String × String)) (k : String) : Option String :=
  (d.reverse.find? (fun p => p.1 == k)).map Prod.snd

namespace Emoji

/-- The `possible_matches` dict of `imageify_emojis`, as the
association list `{emoji.shortcode: emoji.as_html() for emoji in
emoji_set if emoji.is_usable}`. -/
def possible_matches (cfg : Bool) (emoji_set : List Emoji) : List (String × String) :=
  (emoji_set.filter (is_usable cfg)).map (fun e => (e.shortcode, as_html cfg e))

/-- `Emoji.imageify_emojis(content, emojis=..., include_local=...)`.
`locals` models `cls.locals.values()` (the process-wide cache of local
emoji, in insertion order).  `TypeError` is modelled by `Except.error`.
Mirrors: start from the local cache if `include_local`; `if emojis:`
(truthiness) extend with a list/queryset or raise `TypeError`; build
`possible_matches` over the usable records; substitute with the
regex. -/
def imageify_emojis (cfg : Bool) (locals : List Emoji) (content : String)
    (emojis : EmojisArg) (include_local : Bool) : Except String String :=
  let emoji_set : List Emoji := if include_local then locals else []
  let extended : Except String (List Emoji) :=
    if argTruthy emojis then
      match emojis with
      | .listArg l => Except.ok (emoji_set ++ l)
      | .querysetArg l => Except.ok (emoji_set ++ l)
      | .otherArg _ => Except.error "Unsupported type for emojis"
      | .noneArg => Except.ok emoji_set
    else Except.ok emoji_set
  match extended with
  | Except.error msg => Except.error msg
  | Except.ok es =>
      let table := possible_matches cfg es
      Except.ok (String.mk (emoji_regex_sub (dictLookup table) content.data))

end Emoji

/-! ### Shortcode extraction and sorting

`Emoji.emojis_from_content` computes
`emoji_hits = cls.emoji_regex.findall(strip_html(content))` and
`emojis = sorted({emoji.lower() for emoji in emoji_hits})`.  Python's
`sorted` on strings is lexicographic by code point; we model it by an
insertion sort under `strLe`. -/

/-- Lexicographic comparison of character lists by code point, as
Python compares strings. -/
def charsLe : List Char → List Char → Bool
  | [], _ => true
  | _ :: _, [] => false
  | a :: as, b :: bs =>
    if a.toNat < b.toNat then true
    else if b.toNat < a.toNat then false
    else charsLe as bs

/-- Python's `<=` on strings. -/
def strLe (a b : String) : Bool :=
  charsLe a.data b.data

/-- Python's `sorted` on a list of strings. -/
def pySorted (l : List String) : List String :=
  List.insertionSort (fun a b => strLe a b = true) l

/-- Modelled from the spec: `core.html.strip_html` (module not part of
the sources) "strips markup first".  General theorems quantify over an
arbitrary strip function; on markup-free text such as the claims'
concrete examples stripping is the identity, which this definition
provides. -/
def strip_html_markupFree : String → String := fun s => s

namespace Emoji

/-- The shortcode-extraction stage of `Emoji.emojis_from_content`:
findall over the stripped content, then `sorted({hit.lower() ...})`
(a set comprehension then `sorted`, modelled by `dedup` then sort). -/
def emojis_from_content_codes (stripHtml : String → String) (content : String) :
    List String :=
  let emoji_hits := emoji_regex_findall (stripHtml content).data
  pySorted ((emoji_hits.map (fun r => String.mk (lowerRun r))).dedup)

/-- `Emoji.emojis_from_content(content, domain)` over a list-modelled
`Emoji.objects`: the extracted codes, then
`objects.filter(local=(domain is None) or domain.local)
.usable(domain).filter(shortcode__in=emojis)`. -/
def emojis_from_content (cfg : Bool) (es : List Emoji)
    (stripHtml : String → String) (content : String) (domain : Option Domain) :
    List Emoji :=
  let emojis := emojis_from_content_codes stripHtml content
  let b : Bool := match domain with | none => true | some d => d.«local»
  (EmojiQuerySet.usable cfg (es.filter fun e => e.«local» == b) domain).filter
    (fun e => emojis.contains e.shortcode)

end Emoji

/-! ### Sample records for concrete evaluations -/

/-- A remote emoji record awaiting its fetch: remote URL set, no
cached file yet. -/
def sampleRemote : Emoji :=
  { pk := 1, shortcode := "blob", domain := some 7, «local» := false,
    public := some true, object_uri := some "https://example.com/emoji/1",
    mimetype := "", file := none,
    remote_url := some "https://example.com/blob.png", category := none,
    state := EmojiState.outdated }

/-- A usable local emoji record with a cached file. -/
def sampleLocal : Emoji :=
  { pk := 2, shortcode := "smile", domain := none, «local» := true,
    public := some true, object_uri := none, mimetype := "image/png",
    file := some "/media/emoji/smile.png", remote_url := none,
    category := none, state := EmojiState.updated }

/-- A local emoji record whose visibility was explicitly rejected
(`public=False`). -/
def sampleRejected : Emoji :=
  { pk := 3, shortcode := "sad", domain := none, «local» := true,
    public := some false, object_uri := none, mimetype := "image/png",
    file := some "/media/emoji/sad.png", remote_url := none,
    category := none, state := EmojiState.updated }

/-! ## Theorems -/

/-! ### Scanner lemmas -/

theorem lits_rev_flatten (l : List Char) :
    (List.map (tokText ∘ EmojiTok.lit) l).reverse.flatten = l.reverse := by
  induction l with
  | nil => rfl
  | cons a as ih => simp [tokText] at ih ⊢; simp [ih]

/-- The tokens of a scan spell the input back: the scanner is a
decomposition of the text, so characters outside matches pass through
unchanged. -/
theorem scan_join : ∀ (st : Option (List Char)) (prevW : Bool) (cs : List Char),
    ((scan st prevW cs).map tokText).flatten = stText st ++ cs := by
  intro st prevW cs
  induction st, prevW, cs using scan.induct with
  | case1 => simp [scan, stText]
  | case2 acc x => simp [scan, stText, tokText, lits_rev_flatten]
  | case3 prevW c rest h ih =>
    simp only [Bool.and_eq_true, decide_eq_true_eq, Bool.not_eq_true'] at h
    obtain ⟨hc, hp⟩ := h
    subst hc; subst hp
    rw [scan.eq_def]
    simp [tokText, ih, stText]
  | case4 prevW c rest h ih =>
    rw [scan.eq_def]
    simp only [Bool.and_eq_true, decide_eq_true_eq, Bool.not_eq_true', not_and] at h
    by_cases hc : c = ':'
    · subst hc
      have hp : prevW = true := by
        cases prevW
        · exact absurd rfl (h rfl)
        · rfl
      subst hp
      simp [tokText, ih, stText]
    · simp [hc, tokText, ih, stText]
  | case5 acc x t rest h ih =>
    rw [scan.eq_def]
    simp [h, ih, stText]
  | case6 acc x rest hacc hcls ih =>
    rw [scan.eq_def]
    simp +decide [hacc, tokText, ih, stText, List.isEmpty_iff.mp hacc]
  | case7 acc x hacc hcls =>
    rw [scan.eq_def]
    simp +decide [hacc, tokText, stText]
  | case8 acc x hacc d tail hd hcls ih =>
    rw [scan.eq_def]
    simp only [Bool.not_eq_true'] at hd
    simp +decide [hacc, hd, tokText, ih, stText]
  | case9 acc x hacc d tail hd hh hcls ih =>
    rw [scan.eq_def]
    simp only [Bool.not_eq_true', Bool.not_eq_false] at hd hh
    simp only [List.headD_eq_head?_getD] at hh
    simp +decide [hacc, hd, hh, tokText, ih, stText, lits_rev_flatten]
  | case10 acc x hacc d tail hd hh hcls ih =>
    rw [scan.eq_def]
    simp only [Bool.not_eq_true', Bool.not_eq_false] at hd hh
    simp only [List.headD_eq_head?_getD] at hh
    simp +decide [hacc, hd, hh, tokText, ih, stText, lits_rev_flatten]
  | case11 acc x t rest ht hcolon ih =>
    rw [scan.eq_def]
    simp +decide [ht, hcolon, tokText, ih, stText, lits_rev_flatten]

/-! ### Sorting lemmas -/

theorem charsLe_total : ∀ a b, charsLe a b = true ∨ charsLe b a = true
  | [], _ => Or.inl rfl
  | _ :: _, [] => Or.inr rfl
  | a :: as, b :: bs => by
    simp only [charsLe]
    rcases Nat.lt_trichotomy a.toNat b.toNat with h | h | h
    · left; simp [h]
    · have h2 : ¬ a.toNat < b.toNat := by omega
      have h3 : ¬ b.toNat < a.toNat := by omega
      simp only [h2, h3, if_false]
      exact charsLe_total as bs
    · right; simp [h]

theorem charsLe_trans : ∀ a b c, charsLe a b = true → charsLe b c = true →
    charsLe a c = true
  | [], _, _, _, _ => rfl
  | _ :: _, [], _, h1, _ => by simp [charsLe] at h1
  | _ :: _, _ :: _, [], _, h2 => by simp [charsLe] at h2
  | a :: as, b :: bs, c :: cs, h1, h2 => by
    simp only [charsLe] at h1 h2 ⊢
    by_cases hab : a.toNat < b.toNat
    · by_cases hbc : b.toNat < c.toNat
      · simp [show a.toNat < c.toNat by omega]
      · by_cases hcb : c.toNat < b.toNat
        · simp [hbc, hcb] at h2
        · simp [show a.toNat < c.toNat by omega]
    · by_cases hba : b.toNat < a.toNat
      · simp [hab, hba] at h1
      · by_cases hbc : b.toNat < c.toNat
        · simp [show a.toNat < c.toNat by omega]
        · by_cases hcb : c.toNat < b.toNat
          · simp [hbc, hcb] at h2
          · have hac : ¬ a.toNat < c.toNat := by omega
            have hca : ¬ c.toNat < a.toNat := by omega
            simp only [hab, hba, if_false] at h1
            simp only [hbc, hcb, if_false] at h2
            simp only [hac, hca, if_false]
            exact charsLe_trans as bs cs h1 h2

theorem pySorted_sorted (l : List String) :
    List.Sorted (fun a b => strLe a b = true) (pySorted l) := by
  have htot : IsTotal String (fun a b => strLe a b = true) :=
    ⟨fun a b => charsLe_total a.data b.data⟩
  have htrans : IsTrans String (fun a b => strLe a b = true) :=
    ⟨fun a b c => charsLe_trans a.data b.data c.data⟩
  exact @List.sorted_insertionSort String _ (fun _ _ => inferInstance) htot htrans l

theorem pySorted_perm (l : List String) : List.Perm (pySorted l) l :=
  List.perm_insertionSort _ l

/-! ### Claims about the state handler -/

/-- C1, counterexample: a record in `outdated` with a remote URL and no
cached file whose fetch fails does NOT stay in `outdated` — the handler
returns `updated` unconditionally, so no retry ever happens. -/
theorem C1_failed_fetch_counterexample :
    ¬ ((EmojiStates.handle_outdated (fun _ => none) sampleRemote).next =
        EmojiState.outdated) := by
  decide

/-- C1 (amended): for a record in `outdated` with a remote URL and no
cached file, a successful fetch persists the returned file and media
type and the record transitions to `updated`; a failed fetch leaves the
record unsaved but the handler still returns `updated` (it does not
remain in `outdated`, so the 300-unit try interval never reschedules
it). -/
theorem C1_handle_outdated_amended (fetch : String → Option (String × String))
    (e : Emoji) (h1 : strTruthy e.remote_url = true) (h2 : e.file = none) :
    (∀ f mt, fetch (e.remote_url.getD "") = some (f, mt) →
      EmojiStates.handle_outdated fetch e =
        ⟨{ e with file := some f, mimetype := mt }, true, true, EmojiState.updated⟩) ∧
    (fetch (e.remote_url.getD "") = none →
      EmojiStates.handle_outdated fetch e = ⟨e, true, false, EmojiState.updated⟩) := by
  constructor
  · intro f mt hf
    simp [EmojiStates.handle_outdated, h1, h2, hf]
  · intro hf
    simp [EmojiStates.handle_outdated, h1, h2, hf]

theorem C1_handle_outdated_amended_witness :
    EmojiStates.handle_outdated (fun _ => some ("blob.png", "image/png")) sampleRemote =
      ⟨{ sampleRemote with file := some "blob.png", mimetype := "image/png" },
        true, true, EmojiState.updated⟩ ∧
    EmojiStates.handle_outdated (fun _ => none) sampleRemote =
      ⟨sampleRemote, true, false, EmojiState.updated⟩ :=
  ⟨(C1_handle_outdated_amended (fun _ => some ("blob.png", "image/png"))
      sampleRemote (by decide) rfl).1 "blob.png" "image/png" rfl,
    (C1_handle_outdated_amended (fun _ => none) sampleRemote
      (by decide) rfl).2 rfl⟩

/-- C4: a record in `outdated` that already has a cached file, or has
no remote URL, transitions to `updated` with no fetch and no mutation
to the record. -/
theorem C4_handle_outdated_no_fetch (fetch : String → Option (String × String))
    (e : Emoji) (h : e.file ≠ none ∨ strTruthy e.remote_url = false) :
    EmojiStates.handle_outdated fetch e = ⟨e, false, false, EmojiState.updated⟩ := by
  rcases h with h | h
  · rcases hf : e.file with _ | v
    · exact absurd hf h
    · simp [EmojiStates.handle_outdated, hf]
  · simp [EmojiStates.handle_outdated, h]

theorem C4_handle_outdated_no_fetch_witness :
    EmojiStates.handle_outdated (fun _ => some ("f", "m")) sampleLocal =
      ⟨sampleLocal, false, false, EmojiState.updated⟩ ∧
    EmojiStates.handle_outdated (fun _ => some ("f", "m"))
        { sampleRemote with file := some "cached.png" } =
      ⟨{ sampleRemote with file := some "cached.png" }, false, false,
        EmojiState.updated⟩ :=
  ⟨C4_handle_outdated_no_fetch _ sampleLocal (Or.inr rfl),
    C4_handle_outdated_no_fetch _ { sampleRemote with file := some "cached.png" }
      (Or.inl (by decide))⟩

/-- C10: when the fetch fails (returns no file), the handler leaves
`file` and `mimetype` untouched and never calls `save` — no partial
mutation survives a failed fetch. -/
theorem C10_failed_fetch_frame (fetch : String → Option (String × String))
    (e : Emoji) (h1 : strTruthy e.remote_url = true) (h2 : e.file = none)
    (h3 : fetch (e.remote_url.getD "") = none) :
    (EmojiStates.handle_outdated fetch e).inst = e ∧
    (EmojiStates.handle_outdated fetch e).saved = false := by
  simp [EmojiStates.handle_outdated, h1, h2, h3]

theorem C10_failed_fetch_frame_witness :
    (EmojiStates.handle_outdated (fun _ => none) sampleRemote).inst = sampleRemote ∧
    (EmojiStates.handle_outdated (fun _ => none) sampleRemote).saved = false :=
  C10_failed_fetch_frame (fun _ => none) sampleRemote (by decide) rfl rfl

/-! ### Claims about validation and visibility -/

/-- C5: `clean` succeeds iff `local` equals `domain is None`; a local
record with a domain, or a non-local record without one, is rejected
with the validation error. -/
theorem C5_clean_local_iff_no_domain (e : Emoji) :
    (Emoji.clean e = Except.ok () ↔ (e.«local» = true ↔ e.domain = none)) ∧
    ((e.«local» = true ∧ e.domain ≠ none) ∨ (e.«local» = false ∧ e.domain = none) →
      Emoji.clean e = Except.error "Must be local or have a domain") := by
  cases hl : e.«local» <;> rcases hd : e.domain with _ | d <;>
    simp [Emoji.clean, hl, hd]

theorem C5_clean_local_iff_no_domain_witness :
    Emoji.clean { sampleRemote with «local» := true } =
      Except.error "Must be local or have a domain" :=
  (C5_clean_local_iff_no_domain { sampleRemote with «local» := true }).2
    (Or.inl ⟨rfl, by decide⟩)

/-- C6: a record is usable iff its `public` flag is explicitly `True`,
or the flag is unset (`None`) and the global
`emoji_unreviewed_are_public` flag is on. -/
theorem C6_is_usable_iff (cfg : Bool) (e : Emoji) :
    Emoji.is_usable cfg e = true ↔
      (e.public = some true ∨ (e.public = none ∧ cfg = true)) := by
  rcases hp : e.public with _ | b
  · simp [Emoji.is_usable, hp]
  · cases b <;> simp [Emoji.is_usable, hp]

/-- C2, counterexample: for the local scope the lookup applies no
visibility check at all — a local record whose visibility was
explicitly rejected (`public=False`, so not usable even with the
permissive flag on) is still returned. -/
theorem C2_visibility_counterexample :
    sampleRejected ∈ EmojiQuerySet.usable true [sampleRejected] none ∧
    Emoji.is_usable true sampleRejected = false := by
  decide

/-- C2 (amended): for a non-local domain scope the lookup returns
exactly the records of that domain satisfying the usable visibility
policy; for the local scope (no domain, or a local domain) it returns
exactly the `local=True` records, with no visibility filtering. -/
theorem C2_usable_characterization (cfg : Bool) (es : List Emoji) (e : Emoji) :
    (e ∈ EmojiQuerySet.usable cfg es none ↔ e ∈ es ∧ e.«local» = true) ∧
    (∀ d : Domain, d.«local» = true →
      (e ∈ EmojiQuerySet.usable cfg es (some d) ↔ e ∈ es ∧ e.«local» = true)) ∧
    (∀ d : Domain, d.«local» = false →
      (e ∈ EmojiQuerySet.usable cfg es (some d) ↔
        e ∈ es ∧ e.domain = some d.id ∧
          (e.public = some true ∨ (e.public = none ∧ cfg = true)))) := by
  refine ⟨?_, ?_, ?_⟩
  · simp [EmojiQuerySet.usable, List.mem_filter]
  · intro d hd
    simp [EmojiQuerySet.usable, hd, List.mem_filter]
  · intro d hd
    simp [EmojiQuerySet.usable, hd, List.mem_filter]
    tauto

theorem C2_usable_characterization_witness :
    sampleRemote ∈ EmojiQuerySet.usable true [sampleRemote] (some ⟨7, false⟩) :=
  ((C2_usable_characterization true [sampleRemote] sampleRemote).2.2
    ⟨7, false⟩ rfl).mpr (by decide)

/-! ### Claims about rendering -/

/-- C3, counterexample: a falsy value of an unsupported type (for
example an empty dict, modelled by `otherArg false`) passed as the
renderer's `emojis` argument does NOT raise `TypeError` — the
truthiness guard `if emojis:` skips the type check and the argument is
silently ignored. -/
theorem C3_falsy_unsupported_counterexample :
    Emoji.imageify_emojis false [] "x" (EmojisArg.otherArg false) true =
      Except.ok "x" := rfl

/-- C3 (amended): a truthy value of an unsupported type passed as the
renderer's `emojis` argument raises `TypeError` immediately; falsy
unsupported values slip through the `if emojis:` guard and are
silently ignored. -/
theorem C3_truthy_unsupported_raises (cfg : Bool) (locals : List Emoji)
    (content : String) (include_local : Bool) :
    Emoji.imageify_emojis cfg locals content (EmojisArg.otherArg true) include_local =
      Except.error "Unsupported type for emojis" := by
  simp [Emoji.imageify_emojis, argTruthy]

/-- C7: shortcode extraction strips markup first, collects the
captured groups of the emoji regex over the stripped text, lower-cases
them, deduplicates, and sorts; on `":Foo: bar :foo: :Bar:"` it yields
exactly `["bar", "foo"]`. -/
theorem C7_extract_shortcodes :
    (∀ (stripHtml : String → String) (content : String),
      List.Sorted (fun a b => strLe a b = true)
        (Emoji.emojis_from_content_codes stripHtml content) ∧
      (Emoji.emojis_from_content_codes stripHtml content).Nodup ∧
      (∀ s, s ∈ Emoji.emojis_from_content_codes stripHtml content ↔
        ∃ run ∈ emoji_regex_findall (stripHtml content).data,
          String.mk (lowerRun run) = s)) ∧
    Emoji.emojis_from_content_codes strip_html_markupFree ":Foo: bar :foo: :Bar:" =
      ["bar", "foo"] := by
  constructor
  · intro stripHtml content
    refine ⟨pySorted_sorted _, ?_, ?_⟩
    · exact (pySorted_perm _).nodup_iff.mpr (List.nodup_dedup _)
    · intro s
      rw [Emoji.emojis_from_content_codes, (pySorted_perm _).mem_iff,
        List.mem_dedup, List.mem_map]
  · decide

/-- C8: the renderer builds its table from the usable records of
(the local cache when `include_local`) together with the supplied
records, and rewrites the text token by token: every match whose
lower-cased code is a key of the table becomes that key's inline image
markup, every other token keeps its original text (the token
decomposition spells the input back verbatim). -/
theorem C8_imageify_substitutes (cfg : Bool) (locals extra : List Emoji)
    (content : String) (include_local : Bool) (table : String → Option String)
    (htable : table = dictLookup (Emoji.possible_matches cfg
      ((if include_local then locals else []) ++ extra))) :
    (Emoji.imageify_emojis cfg locals content (EmojisArg.listArg extra)
        include_local =
      Except.ok (String.mk
        (((scan none false content.data).map (renderTok table)).flatten)) ∧
     Emoji.imageify_emojis cfg locals content (EmojisArg.querysetArg extra)
        include_local =
      Except.ok (String.mk
        (((scan none false content.data).map (renderTok table)).flatten))) ∧
    ((scan none false content.data).map tokText).flatten = content.data ∧
    (∀ run repl, table (String.mk (lowerRun run)) = some repl →
      renderTok table (EmojiTok.mtch run) = repl.data) ∧
    (∀ run, table (String.mk (lowerRun run)) = none →
      renderTok table (EmojiTok.mtch run) = tokText (EmojiTok.mtch run)) := by
  subst htable
  refine ⟨⟨?_, ?_⟩, scan_join none false content.data, ?_, ?_⟩
  · by_cases hx : extra.isEmpty
    · rw [List.isEmpty_iff.mp hx]
      simp [Emoji.imageify_emojis, argTruthy, emoji_regex_sub]
    · simp [Emoji.imageify_emojis, argTruthy, hx, emoji_regex_sub]
  · by_cases hx : extra.isEmpty
    · rw [List.isEmpty_iff.mp hx]
      simp [Emoji.imageify_emojis, argTruthy, emoji_regex_sub]
    · simp [Emoji.imageify_emojis, argTruthy, hx, emoji_regex_sub]
  · intro run repl h
    simp [renderTok, h]
  · intro run h
    simp [renderTok, h, tokText]

theorem C8_imageify_substitutes_witness :
    Emoji.imageify_emojis true [sampleLocal] "Hi :smile:" (EmojisArg.listArg [])
        true =
      Except.ok ("Hi " ++ Emoji.as_html true sampleLocal) :=
  ((C8_imageify_substitutes true [sampleLocal] [] "Hi :smile:" true _ rfl).1.1).trans
    (by rfl)

/-- C9: a usable record with no cached file and no remote URL renders
as inline image markup pointing at the static placeholder
`img/blank-emoji-128.png` (it does not fail); a record that is not
usable renders as the literal `:shortcode:` text. -/
theorem C9_render_fallbacks (cfg : Bool) (e : Emoji) :
    (Emoji.is_usable cfg e = true → e.file = none →
        strTruthy e.remote_url = false →
      Emoji.full_url cfg e =
        RelativeAbsoluteUrl.staticAsset "img/blank-emoji-128.png" ∧
      Emoji.as_html cfg e =
        "<img src=\"" ++
          (RelativeAbsoluteUrl.staticAsset "img/blank-emoji-128.png").relative ++
          "\" class=\"emoji\" alt=\"Emoji " ++ e.shortcode ++ "\">") ∧
    (Emoji.is_usable cfg e = false → Emoji.as_html cfg e = Emoji.fullcode e) := by
  constructor
  · intro hu hf hr
    have hurl : Emoji.full_url cfg e =
        RelativeAbsoluteUrl.staticAsset "img/blank-emoji-128.png" := by
      simp [Emoji.full_url, hu, hf, hr]
    exact ⟨hurl, by simp [Emoji.as_html, hu, hurl]⟩
  · intro hu
    simp [Emoji.as_html, hu]

theorem C9_render_fallbacks_witness :
    Emoji.full_url true { sampleLocal with file := none } =
      RelativeAbsoluteUrl.staticAsset "img/blank-emoji-128.png" ∧
    Emoji.as_html true sampleRejected = ":sad:" :=
  ⟨((C9_render_fallbacks true { sampleLocal with file := none }).1
      (by decide) rfl rfl).1,
    ((C9_render_fallbacks true sampleRejected).2 (by decide)).trans (by decide)⟩

end Takahe
